import Mathlib

/-!
Verification of the Rafale event indexer against its specification.

Each Go package that the claims touch is embedded shallowly:

* `pkg/config` (`config.go`, `networks.go`): translated directly from the
  source; `viper` unmarshalling and `os.Getenv` are passed in as explicit
  inputs.
* `internal/store` (`models.go`): translated directly from the source;
  `time.Time` is abstracted to a `Nat` instant where `0` is the zero time
  and `time.Now()` is an explicit input.
* `internal/rpc`, `pkg/decoder`, `pkg/handler`, `internal/engine`: the
  implementation files are not part of the source snapshot (only their
  tests are); those parts are modelled from the specification, as noted
  on each definition, and cross-checked against the expectations recorded
  in the test files.

Strings, byte slices and machine words are modelled as `String`,
`List Nat` (each entry `< 256`) and `Nat` with explicit `% 2 ^ 64`
reductions where Go overflow matters.
-/

namespace Rafale

/-! ## String helpers (Go `strings` package fragment) -/

/-- Model of a prefix test on character lists, used to build the
substring test of Go `strings.Contains`. -/
def isPrefixList : List Char → List Char → Bool
  | [], _ => true
  | _ :: _, [] => false
  | x :: xs, y :: ys => x = y && isPrefixList xs ys

/-- Model of Go `strings.Contains` on character lists: does `hay` contain
`needle` as a contiguous run? -/
def containsList (needle : List Char) : List Char → Bool
  | [] => needle.isEmpty
  | c :: rest => isPrefixList needle (c :: rest) || containsList needle rest

/-- Model of Go `strings.Contains s sub`. -/
def strContains (s sub : String) : Bool :=
  containsList sub.toList s.toList

/-- Lowercasing of one character (ASCII fragment of Go
`strings.ToLower`; the classifier tokens are pure ASCII). -/
def charToLower (c : Char) : Char :=
  if 65 ≤ c.toNat && c.toNat ≤ 90 then Char.ofNat (c.toNat + 32) else c

/-- Model of Go `strings.ToLower` on the ASCII fragment. -/
def strToLower (s : String) : String :=
  String.mk (s.toList.map charToLower)

/-! ## Package `config`: data model (`config.go`) -/

/-- ContractConfig defines a contract to index (`config.go`). -/
structure ContractConfig where
  abi : String
  address : String
  startBlock : Nat
  events : List String
deriving Repr, DecidableEq

/-- ServerConfig holds API server configuration (`config.go`). -/
structure ServerConfig where
  graphqlPort : Int
  metricsPort : Int
deriving Repr, DecidableEq

/-- SyncConfig holds synchronization configuration (`config.go`).
`retryDelay` is a Go `time.Duration` in nanoseconds. -/
structure SyncConfig where
  batchSize : Nat
  maxRetries : Int
  retryDelay : Nat
deriving Repr, DecidableEq

/-- Config holds all Rafale configuration (`config.go`).  The Go
`map[string]ContractConfig` is embedded as an association list. -/
structure Config where
  name : String
  network : String
  database : String
  rpcURL : String
  contracts : List (String × ContractConfig)
  server : ServerConfig
  sync : SyncConfig
  chainID : Nat
  pollInterval : Nat
deriving Repr, DecidableEq

/-- NetworkPreset contains network-specific default values
(`networks.go`); durations are nanoseconds. -/
structure NetworkPreset where
  chainID : Nat
  pollInterval : Nat
  defaultRPC : String
  blockTime : Nat
  l1ChainID : Nat
deriving Repr, DecidableEq

/-- Nanoseconds in one Go `time.Second`. -/
def goSecond : Nat := 1000000000

/-- NetworkPresets lookup (`networks.go`): the Go two-entry map literal
and `GetNetworkPreset` collapsed into one total function; `none` plays
the role of `ok = false`. -/
def getNetworkPreset (network : String) : Option NetworkPreset :=
  if network = "linea-mainnet" then
    some { chainID := 59144, pollInterval := 2 * goSecond,
           defaultRPC := "https://rpc.linea.build",
           blockTime := 2 * goSecond, l1ChainID := 1 }
  else if network = "linea-sepolia" then
    some { chainID := 59141, pollInterval := 2 * goSecond,
           defaultRPC := "https://rpc.sepolia.linea.build",
           blockTime := 2 * goSecond, l1ChainID := 11155111 }
  else
    none

/-- Per-contract validation loop of `Config.Validate` (`config.go`,
lines 142-152), returning the first error in iteration order. -/
def contractsError : List (String × ContractConfig) → Option String
  | [] => none
  | (n, cc) :: rest =>
    if cc.address = "" then some ("contract " ++ n ++ ": address is required")
    else if cc.abi = "" then some ("contract " ++ n ++ ": abi path is required")
    else if cc.events.isEmpty then
      some ("contract " ++ n ++ ": at least one event must be specified")
    else contractsError rest

/-- Validate checks that all required configuration is present
(`config.go`, lines 128-155); `none` models a nil error. -/
def validate (c : Config) : Option String :=
  if c.name = "" then some "name is required"
  else if c.network = "" then some "network is required"
  else if c.database = "" then
    some "database connection string is required (set DATABASE_URL env var or database in config)"
  else if c.contracts.isEmpty then some "at least one contract must be defined"
  else contractsError c.contracts

/-- Load reads configuration from file and environment (`config.go`,
lines 81-122).  The result of `viper.Unmarshal` is the input `cfg`;
`envDatabaseURL` and `envLineaRPCURL` are the values of the
`DATABASE_URL` and `LINEA_RPC_URL` environment variables, with `""`
standing for an unset variable exactly as `os.Getenv` reports it. -/
def load (cfg : Config) (envDatabaseURL envLineaRPCURL : String) :
    Except String Config :=
  match getNetworkPreset cfg.network with
  | none =>
    .error ("unknown network: " ++ cfg.network ++ " (valid: linea-mainnet, linea-sepolia)")
  | some preset =>
    let c1 : Config :=
      { cfg with chainID := preset.chainID, pollInterval := preset.pollInterval }
    let c2 : Config :=
      if c1.rpcURL = "" then { c1 with rpcURL := preset.defaultRPC } else c1
    let c3 : Config :=
      if envDatabaseURL ≠ "" then { c2 with database := envDatabaseURL } else c2
    let c4 : Config :=
      if envLineaRPCURL ≠ "" then { c3 with rpcURL := envLineaRPCURL } else c3
    match validate c4 with
    | some e => .error e
    | none => .ok c4

/-! ## Package `rpc`: range-too-large classification -/

/-- Token list of the range-too-large classifier (spec §4.1). -/
def rangeTooLargeIndicators : List String :=
  ["query returned more than", "block range too large",
   "exceed maximum block range", "too many results", "range too wide",
   "block range is too wide", "query timeout", "response too large",
   "max results", "limit exceeded"]

/-- Modelled from the spec: `isRangeTooLargeError` of `internal/rpc`
(its implementation file is absent from the snapshot; only
`TestIsRangeTooLargeError` is present).  Spec §4.1: classify an error as
range-too-large when its message, lowercased, contains any of the listed
tokens.  A Go `error` is `Option String` with `none` for nil. -/
def isRangeTooLargeError : Option String → Bool
  | none => false
  | some msg => rangeTooLargeIndicators.any (fun ind => strContains (strToLower msg) ind)

/-! ## Package `store`: models (`models.go`) -/

/-- BaseEvent contains common fields for all event models (`models.go`).
Go `time.Time` values are abstracted to `Nat` instants where `0` is the
zero time, so `Timestamp.IsZero()` becomes `timestamp = 0`. -/
structure BaseEvent where
  id : Nat
  blockNumber : Nat
  txHash : String
  txIndex : Nat
  logIndex : Nat
  timestamp : Nat
  createdAt : Nat
deriving Repr, DecidableEq

/-- BeforeCreate sets the timestamp if not already set (`models.go`,
lines 22-27).  `now` is the value `time.Now()` would return; the second
component is the returned `error` (`none` = nil). -/
def beforeCreate (now : Nat) (b : BaseEvent) : BaseEvent × Option String :=
  (if b.timestamp = 0 then { b with timestamp := now } else b, none)

/-! ## Association-list maps (Go `map` with insert-or-replace) -/

/-- Insertion into a Go map: `m[k] = v` replaces any existing binding. -/
def mapInsert {κ α : Type} [DecidableEq κ] (k : κ) (v : α) :
    List (κ × α) → List (κ × α)
  | [] => [(k, v)]
  | (k0, v0) :: rest =>
    if k0 = k then (k, v) :: rest else (k0, v0) :: mapInsert k v rest

/-- Lookup in a Go map: `v, ok := m[k]` with `none` for `ok = false`. -/
def mapLookup {κ α : Type} [DecidableEq κ] (k : κ) :
    List (κ × α) → Option α
  | [] => none
  | (k0, v0) :: rest => if k0 = k then some v0 else mapLookup k rest

/-! ## Byte and hex helpers -/

/-- Big-endian interpretation of a byte list as a natural number. -/
def bytesToNat (bs : List Nat) : Nat :=
  bs.foldl (fun acc b => acc * 256 + b) 0

/-- Little-endian interpretation of a byte list as a natural number. -/
def bytesToNatLE (bs : List Nat) : Nat :=
  bs.foldr (fun b acc => acc * 256 + b) 0

/-- Big-endian bytes of `n`, padded to `len` bytes. -/
def natToBytesBE (n len : Nat) : List Nat :=
  (List.range len).map (fun i => (n >>> (8 * (len - 1 - i))) % 256)

/-- Little-endian bytes of `n`, padded to `len` bytes. -/
def natToBytesLE (n len : Nat) : List Nat :=
  (List.range len).map (fun i => (n >>> (8 * i)) % 256)

/-- Lowercase hexadecimal digit for a nibble (Go `hex` alphabet). -/
def hexDigitChar (n : Nat) : Char :=
  if n < 10 then Char.ofNat (48 + n) else Char.ofNat (87 + n)

/-- Lowercase hex characters of a byte list, two characters per byte
(Go `hex.EncodeToString`, without prefix). -/
def bytesToHexChars (bs : List Nat) : List Char :=
  bs.foldr (fun b acc => hexDigitChar (b / 16) :: hexDigitChar (b % 16) :: acc) []

/-! ## Keccak-256 (legacy Keccak padding, as used by Ethereum)

The engine renders addresses through go-ethereum `Address.Hex()`, which
applies the EIP-55 checksum and therefore needs Keccak-256.  The
permutation state is a flat list of 25 lanes, each a `Nat` below
`2 ^ 64`, indexed by `x + 5 * y`. -/

/-- Rotation of a 64-bit lane left by `n` (with `x < 2 ^ 64`, `n < 64`). -/
def rotl64 (x n : Nat) : Nat :=
  ((x <<< n) % (2 ^ 64)) ||| (x >>> (64 - n))

/-- Rho step rotation offsets as position-offset pairs, generated by
the standard walk: starting from lane (1,0), step `t` assigns offset
`(t+1)(t+2)/2 mod 64` and moves `(x,y)` to `(y, (2x+3y) mod 5)`. -/
def rhoAssignments : List (Nat × Nat) :=
  ((List.range 24).foldl
    (fun (st : (Nat × Nat) × List (Nat × Nat)) t =>
      let x := st.1.1
      let y := st.1.2
      ((y, (2 * x + 3 * y) % 5),
        (x + 5 * y, (t + 1) * (t + 2) / 2 % 64) :: st.2))
    ((1, 0), [])).2

/-- Rho step rotation offsets, indexed by `x + 5 * y`; lane (0,0) keeps
offset 0. -/
def rhoOffsets : List Nat :=
  (List.range 25).map (fun i => (rhoAssignments.lookup i).getD 0)

/-- Iota step round constants for Keccak-f[1600]. -/
def keccakRoundConstants : List Nat :=
  [0x0000000000000001, 0x0000000000008082, 0x800000000000808a,
   0x8000000080008000, 0x000000000000808b, 0x0000000080000001,
   0x8000000080008081, 0x8000000000008009, 0x000000000000008a,
   0x0000000000000088, 0x0000000080008009, 0x000000008000000a,
   0x000000008000808b, 0x800000000000008b, 0x8000000000008089,
   0x8000000000008003, 0x8000000000008002, 0x8000000000000080,
   0x000000000000800a, 0x800000008000000a, 0x8000000080008081,
   0x8000000000008080, 0x0000000080000001, 0x8000000080008008]

/-- Theta step of Keccak-f. -/
def keccakTheta (s : List Nat) : List Nat :=
  let c := (List.range 5).map (fun x =>
    s.getD x 0 ^^^ s.getD (x + 5) 0 ^^^ s.getD (x + 10) 0 ^^^
    s.getD (x + 15) 0 ^^^ s.getD (x + 20) 0)
  let d := (List.range 5).map (fun x =>
    c.getD ((x + 4) % 5) 0 ^^^ rotl64 (c.getD ((x + 1) % 5) 0) 1)
  (List.range 25).map (fun i => s.getD i 0 ^^^ d.getD (i % 5) 0)

/-- Combined rho and pi steps of Keccak-f. -/
def keccakRhoPi (s : List Nat) : List Nat :=
  (List.range 25).map (fun i =>
    let tx := i % 5
    let ty := i / 5
    let x := (3 * (ty + 2 * tx)) % 5
    let y := tx
    rotl64 (s.getD (x + 5 * y) 0) (rhoOffsets.getD (x + 5 * y) 0))

/-- Chi step of Keccak-f. -/
def keccakChi (s : List Nat) : List Nat :=
  (List.range 25).map (fun i =>
    let x := i % 5
    let y := i / 5
    s.getD i 0 ^^^
      ((s.getD ((x + 1) % 5 + 5 * y) 0 ^^^ (2 ^ 64 - 1)) &&&
        s.getD ((x + 2) % 5 + 5 * y) 0))

/-- Single round of Keccak-f: theta, rho, pi, chi, iota. -/
def keccakRound (s : List Nat) (rc : Nat) : List Nat :=
  match keccakChi (keccakRhoPi (keccakTheta s)) with
  | [] => []
  | a :: rest => (a ^^^ rc) :: rest

/-- Full Keccak-f[1600] permutation: 24 rounds. -/
def keccakF (s : List Nat) : List Nat :=
  keccakRoundConstants.foldl keccakRound s

/-- Legacy Keccak pad10*1 with domain byte 0x01 (Ethereum Keccak-256,
not SHA-3), to a multiple of the 136-byte rate. -/
def keccakPad (msg : List Nat) : List Nat :=
  let padLen := 136 - msg.length % 136
  if padLen = 1 then msg ++ [0x81]
  else msg ++ [0x01] ++ List.replicate (padLen - 2) 0 ++ [0x80]

/-- Absorption of one 136-byte block into the state (XOR into the first
17 lanes, little-endian within each lane). -/
def keccakAbsorbBlock (st block : List Nat) : List Nat :=
  keccakF ((List.range 25).map (fun i =>
    st.getD i 0 ^^^
      (if i < 17 then bytesToNatLE ((block.drop (8 * i)).take 8) else 0)))

/-- Keccak-256 hash of a byte list, as 32 bytes. -/
def keccak256 (msg : List Nat) : List Nat :=
  let padded := keccakPad msg
  let st := (List.range (padded.length / 136)).foldl
    (fun st i => keccakAbsorbBlock st ((padded.drop (136 * i)).take 136))
    (List.replicate 25 0)
  ((List.range 4).map (fun i => natToBytesLE (st.getD i 0) 8)).flatten

/-- EIP-55 checksummed rendering of a 20-byte address, translated from
go-ethereum `Address.Hex()`: lowercase hex digits, with a letter
uppercased when the corresponding nibble of the Keccak-256 hash of the
unprefixed lowercase hex string is at least 8. -/
def checksumAddressHex (a : Nat) : String :=
  let hexChars := bytesToHexChars (natToBytesBE a 20)
  let hash := keccak256 (hexChars.map Char.toNat)
  let nibbleAt := fun (i : Nat) =>
    let b := hash.getD (i / 2) 0
    if i % 2 = 0 then b / 16 else b % 16
  "0x" ++ String.mk ((hexChars.enum).map (fun p =>
    if 57 < p.2.toNat && 7 < nibbleAt p.1 then
      Char.ofNat (p.2.toNat - 32)
    else p.2))

/-! ## Package `decoder`

Modelled from the spec: the `pkg/decoder` implementation file is absent
from the snapshot (only `decoder_test.go` is present).  The model
follows spec §4.2 — registration stores three signature- and
address-keyed maps (`address → parsedABI`, `signatureHash → abiEvent`,
`signatureHash → eventID`) and `Decode` routes on `topic0` — and the map
structure is cross-checked against `TestNew`, `TestClear` and
`TestDecodeMultipleContracts`.  ABI JSON parsing is external
(go-ethereum); ABI descriptions enter the model already parsed, with
each event carrying its 32-byte signature hash. -/

/-- Dynamic event values as produced by go-ethereum ABI decoding:
`addr` is `common.Address`, `big` is `*big.Int` (`none` for a nil
pointer), `bytes` is `[]byte`, `word` is a 32-byte fixed value or topic
hash, the rest are plain Go values. -/
inductive GoValue where
  | addr (a : Nat)
  | big (n : Option Int)
  | bytes (bs : List Nat)
  | str (s : String)
  | word (w : Nat)
  | boolean (b : Bool)
  | intVal (n : Int)
deriving Repr, DecidableEq

/-- ABI parameter types covered by the model (the fragment the
configured contracts use). -/
inductive AbiType where
  | address
  | uint256
  | boolean
  | bytes32
  | bytesDyn
  | stringDyn
deriving Repr, DecidableEq

/-- Single ABI event input: name, type, indexed flag. -/
structure AbiInput where
  name : String
  typ : AbiType
  indexed : Bool
deriving Repr, DecidableEq

/-- Parsed ABI event: name, canonical-signature Keccak hash (the
`topic0` value), ordered inputs. -/
structure AbiEventDef where
  name : String
  sig : Nat
  inputs : List AbiInput
deriving Repr, DecidableEq

/-- Value stored in the decoder `events` map for one signature. -/
structure EventEntry where
  contractName : String
  eventDef : AbiEventDef
deriving Repr, DecidableEq

/-- Decoder state: the three internal maps of spec §4.2. -/
structure Decoder where
  abis : List (Nat × List AbiEventDef)
  events : List (Nat × EventEntry)
  sigToID : List (Nat × String)
deriving Repr, DecidableEq

/-- Decoder with no registrations (`New()`). -/
def emptyDecoder : Decoder := { abis := [], events := [], sigToID := [] }

/-- Event selection of registration: `nil` event names register all
events, otherwise only the named ones, silently skipping absent names
(spec §4.2). -/
def selectedEvents (abiEvents : List AbiEventDef) :
    Option (List String) → List AbiEventDef
  | none => abiEvents
  | some names => abiEvents.filter (fun e => names.contains e.name)

/-- Modelled from the spec: `RegisterContract` of `pkg/decoder`.  Adds
the address to the ABI map and, for each selected event, inserts the
signature-keyed entries; insertion on an existing signature replaces the
previous binding (Go map assignment), so the last registration wins. -/
def registerContract (d : Decoder) (contractName : String) (address : Nat)
    (abiEvents : List AbiEventDef) (eventNames : Option (List String)) :
    Decoder :=
  let sel := selectedEvents abiEvents eventNames
  sel.foldl (fun acc e =>
    { acc with
      events := mapInsert e.sig { contractName := contractName, eventDef := e } acc.events,
      sigToID := mapInsert e.sig (contractName ++ ":" ++ e.name) acc.sigToID })
    { d with abis := mapInsert address abiEvents d.abis }

/-- Chain log as the decoder consumes it: emitting address, topics and
data payload (bytes). -/
structure Log where
  address : Nat
  topics : List Nat
  data : List Nat
deriving Repr, DecidableEq

/-- Decoded event (spec §3): identity triple plus the named data map. -/
structure DecodedEvent where
  contractName : String
  eventName : String
  eventID : String
  data : List (String × GoValue)
deriving Repr, DecidableEq

/-- Decoding of one indexed parameter from its 32-byte topic (spec
§4.2 step 3): address takes the low 20 bytes, integers are big-endian,
bool is non-zero, fixed-size types pass through, dynamic types surface
the hash. -/
def decodeTopic (t : AbiType) (topic : Nat) : GoValue :=
  match t with
  | .address => .addr (topic % 2 ^ 160)
  | .uint256 => .big (some (Int.ofNat topic))
  | .boolean => .boolean (topic % 2 ^ 256 != 0)
  | .bytes32 => .word topic
  | .bytesDyn => .word topic
  | .stringDyn => .word topic

/-- The 32-byte word at head position `i` of an ABI data payload. -/
def wordAt (data : List Nat) (i : Nat) : Nat :=
  bytesToNat ((data.drop (32 * i)).take 32)

/-- Characters of a Go string built from bytes (ASCII fragment). -/
def stringFromBytes (bs : List Nat) : String :=
  String.mk (bs.map Char.ofNat)

/-- Decoding of one non-indexed parameter at head position `i` of the
data payload, per ABI encoding (spec §4.2 step 4): static types read
their word directly; dynamic types follow the offset word to a
length-prefixed tail. -/
def decodeDataValue (data : List Nat) (i : Nat) : AbiType → GoValue
  | .address => .addr (wordAt data i % 2 ^ 160)
  | .uint256 => .big (some (Int.ofNat (wordAt data i)))
  | .boolean => .boolean (wordAt data i != 0)
  | .bytes32 => .word (wordAt data i)
  | .bytesDyn =>
    let off := wordAt data i
    let len := bytesToNat ((data.drop off).take 32)
    .bytes ((data.drop (off + 32)).take len)
  | .stringDyn =>
    let off := wordAt data i
    let len := bytesToNat ((data.drop off).take 32)
    .str (stringFromBytes ((data.drop (off + 32)).take len))

/-- Modelled from the spec: `Decode` of `pkg/decoder` (spec §4.2).
Routes on `topic0` through the signature-keyed `events` map, decodes
indexed parameters positionally from the remaining topics, decodes
non-indexed parameters from the data payload only when it is non-empty,
and assembles the decoded event. -/
def decode (d : Decoder) (log : Log) : Except String DecodedEvent :=
  match log.topics with
  | [] => .error "log has no topics"
  | topic0 :: restTopics =>
    match mapLookup topic0 d.events with
    | none => .error "unknown event signature"
    | some entry =>
      let indexed := entry.eventDef.inputs.filter (fun i => i.indexed)
      let nonIndexed := entry.eventDef.inputs.filter (fun i => !i.indexed)
      let indexedVals := (indexed.zip restTopics).map
        (fun p => (p.1.name, decodeTopic p.1.typ p.2))
      let dataVals :=
        if log.data.isEmpty then []
        else nonIndexed.enum.map
          (fun p => (p.2.name, decodeDataValue log.data p.1 p.2.typ))
      .ok { contractName := entry.contractName,
            eventName := entry.eventDef.name,
            eventID := entry.contractName ++ ":" ++ entry.eventDef.name,
            data := indexedVals ++ dataVals }

/-- Identity part of a decode result, for routing claims. -/
def decodeIdentity (d : Decoder) (log : Log) : Except String (String × String) :=
  Except.map (fun ev => (ev.contractName, ev.eventName)) (decode d log)

/-- Boolean test for the string-valued constructor of `GoValue`. -/
def isStringValue : GoValue → Bool
  | .str _ => true
  | _ => false

/-! ## Package `handler` -/

/-- BlockInfo passed to handlers (`handler` package, per its tests). -/
structure BlockInfo where
  number : Nat
  hash : String
  time : Nat
  parentHash : String

/-- Handler context: block info, raw log and decoded event (`none`
models a nil `Event` pointer).  The transaction handle `DB` carries no
data relevant to dispatch and is omitted. -/
structure HandlerContext where
  block : BlockInfo
  log : Log
  event : Option DecodedEvent

/-- Handler registry: eventID-keyed map of handler functions; a handler
returns `none` for a nil error (`pkg/handler`, spec §4.4). -/
structure Registry where
  handlers : List (String × (HandlerContext → Option String))

/-- Registration into the registry: later registration overwrites. -/
def registryRegister (r : Registry) (id : String)
    (f : HandlerContext → Option String) : Registry :=
  { handlers := mapInsert id f r.handlers }

/-- Modelled from the spec: `Registry.Handle` of `pkg/handler` (spec
§4.4): nil event fails with an "event is nil" message; an unregistered
eventID silently succeeds; a handler error is wrapped with the eventID
and propagated. -/
def handle (r : Registry) (ctx : HandlerContext) : Option String :=
  match ctx.event with
  | none => some "handler: event is nil"
  | some ev =>
    match mapLookup ev.eventID r.handlers with
    | none => none
    | some f =>
      match f ctx with
      | none => none
      | some e => some ("handler " ++ ev.eventID ++ ": " ++ e)

/-! ## Package `engine`: pure tick arithmetic -/

/-- Reinterpretation of a Go `uint64` value as `int64` (wrapping
conversion). -/
def toInt64 (u : Nat) : Int :=
  if u < 2 ^ 63 then (u : Int) else (u : Int) - 2 ^ 64

/-- Wrap of an integer into the `int64` range (Go two-complement
overflow). -/
def int64Wrap (n : Int) : Int :=
  (n + 2 ^ 63) % 2 ^ 64 - 2 ^ 63

/-- Modelled from the spec: the batch-range computation of the engine
tick (`syncOnce`; implementation absent from the snapshot).  The Go
logic, recorded verbatim in `TestBatchRangeCalculation`, is: skip when
`lastBlock >= headBlock`; otherwise `fromBlock := lastBlock + 1`,
`toBlock := fromBlock + batchSize - 1` (uint64 arithmetic, hence the
`% 2 ^ 64` wrap), clamped down to `headBlock` when it exceeds it. -/
def tickRange (lastBlock headBlock batchSize : Nat) : Option (Nat × Nat) :=
  if lastBlock ≥ headBlock then none
  else
    let fromBlock := (lastBlock + 1) % 2 ^ 64
    let toRaw := (fromBlock + batchSize + (2 ^ 64 - 1)) % 2 ^ 64
    let toBlock := if toRaw > headBlock then headBlock else toRaw
    some (fromBlock, toBlock)

/-- Modelled from the spec: the sync-lag computation of the engine tick,
recorded verbatim in `TestSyncLagCalculation`: `lag := int64(head) -
int64(last)` in wrapping int64 arithmetic, clamped below at 0. -/
def tickLag (lastBlock headBlock : Nat) : Int :=
  let lag := int64Wrap (toInt64 headBlock - toInt64 lastBlock)
  if lag < 0 then 0 else lag

/-! ## Engine: event-data normalization (`convertEventData`)

Modelled from the spec: `convertEventData` of `internal/engine`
(implementation absent from the snapshot; behaviour fixed by
`TestConvertEventData` and spec §3): `common.Address` renders through
the EIP-55 checksummed hex form, `*big.Int` through its decimal string
(a nil pointer as "0"), `[]byte` through unprefixed lowercase hex, and
every other value passes through. -/

/-- Normalization of one dynamic value for persistence. -/
def normalizeGoValue : GoValue → GoValue
  | .addr a => .str (checksumAddressHex a)
  | .big none => .str "0"
  | .big (some n) => .str (toString n)
  | .bytes bs => .str (String.mk (bytesToHexChars bs))
  | v => v

/-- Modelled from the spec: `convertEventData` applies the per-value
normalization to every entry of the decoded data map. -/
def convertEventData (m : List (String × GoValue)) : List (String × GoValue) :=
  m.map (fun p => (p.1, normalizeGoValue p.2))

/-! ## Engine: per-block transaction state machine

Modelled from the spec: the per-block persistence loop of the sync
engine (spec §4.6 steps 6-8; implementation absent from the snapshot).
A block transaction either commits a batch of event rows and advances
the cursor, or rolls back; the store transaction contract (spec §4.3,
exercised by `TestStoreTransactionRollback`) folds every failure mode —
handler error, store error, RPC error inside the block, panic — into
the rolled-back outcome with the store left unchanged. -/

/-- Persisted generic event row (the `block_number` fragment the cursor
invariant talks about). -/
structure EventRow where
  blockNumber : Nat
  txHash : String
  logIndex : Nat
deriving Repr, DecidableEq

/-- Engine cursor plus persisted store content. -/
structure SyncState where
  lastBlock : Nat
  events : List EventRow
deriving Repr, DecidableEq

/-- Outcome of one per-block transaction. -/
inductive TxResult where
  | committed (rows : List EventRow)
  | rolledBack (e : String)
deriving Repr, DecidableEq

/-- Effect of one per-block transaction on the engine state: a commit
appends the rows and advances the cursor to the block number; a
rollback leaves the state untouched (spec §4.6 steps 7-8). -/
def applyBlock (s : SyncState) (bn : Nat) (r : TxResult) : SyncState :=
  match r with
  | .rolledBack _ => s
  | .committed rows => { lastBlock := bn, events := s.events ++ rows }

/-- Processing of the blocks of one batch in ascending order: stop at
the first rolled-back transaction (spec §4.6 step 8 surfaces the error
to the loop without advancing). -/
def processBlocks (s : SyncState) : List (Nat × TxResult) → SyncState
  | [] => s
  | (_, .rolledBack _) :: _ => s
  | (bn, .committed rows) :: rest =>
    processBlocks { lastBlock := bn, events := s.events ++ rows } rest

/-- Admissibility of a batch trace from a state: block numbers strictly
ascend past the cursor and committed rows belong to their block and are
non-empty (blocks enter the loop only when the log filter returned rows
for them). -/
def Admissible : SyncState → List (Nat × TxResult) → Prop
  | _, [] => True
  | s, (bn, r) :: rest =>
    s.lastBlock < bn ∧
    (∀ rows, r = .committed rows → rows ≠ [] ∧ ∀ row ∈ rows, row.blockNumber = bn) ∧
    Admissible (applyBlock s bn r) rest

/-- Character-level test for unprefixed lowercase hexadecimal output:
a decimal digit or a lowercase letter in the a-f range. -/
def isLowerHexChar (c : Char) : Bool :=
  (48 ≤ c.toNat && c.toNat ≤ 57) || (97 ≤ c.toNat && c.toNat ≤ 102)

/-! ## Concrete fixtures (taken from the test files) -/

/-- Keccak-256 hash of "Transfer(address,address,uint256)", the ERC20
Transfer signature (`decoder_test.go`). -/
def transferSig : Nat :=
  0xddf252ad1be2c89b69c2b068fc378daa952ba7f163c4a11628f55a4df523b3ef

/-- Keccak-256 hash of "Approval(address,address,uint256)". -/
def approvalSig : Nat :=
  0x8c5be1e5ebec7d5bd14f71427d1e84f3dd0314c0f7b2291e5b200ac8c7c3b925

/-- Parsed ERC20 Transfer event of the test ABI. -/
def transferDef : AbiEventDef :=
  { name := "Transfer", sig := transferSig,
    inputs := [
      { name := "from", typ := .address, indexed := true },
      { name := "to", typ := .address, indexed := true },
      { name := "value", typ := .uint256, indexed := false }] }

/-- Parsed ERC20 Approval event of the test ABI. -/
def approvalDef : AbiEventDef :=
  { name := "Approval", sig := approvalSig,
    inputs := [
      { name := "owner", typ := .address, indexed := true },
      { name := "spender", typ := .address, indexed := true },
      { name := "value", typ := .uint256, indexed := false }] }

/-- Test contract address (`decoder_test.go`). -/
def testContractAddr : Nat := 0x176211869ca2b568f2a7d4ee941e073a821ee1ff

/-- Test sender address (`decoder_test.go`). -/
def testFromAddr : Nat := 0x1111111111111111111111111111111111111111

/-- Test recipient address (`decoder_test.go`). -/
def testToAddr : Nat := 0x2222222222222222222222222222222222222222

/-- Decoder with the USDC Transfer registration of `TestDecode`. -/
def usdcDecoder : Decoder :=
  registerContract emptyDecoder "USDC" testContractAddr
    [transferDef, approvalDef] (some ["Transfer"])

/-- Transfer log of `TestDecode`: the two address topics plus a 32-byte
data word carrying value 1000000. -/
def transferLog : Log :=
  { address := testContractAddr,
    topics := [transferSig, testFromAddr, testToAddr],
    data := natToBytesBE 1000000 32 }

/-- Decoder of `TestDecodeMultipleContracts`: USDC at one address and
DAI at another, both registering the shared Transfer signature (DAI
last). -/
def multiDecoder : Decoder :=
  registerContract
    (registerContract emptyDecoder "USDC" testFromAddr
      [transferDef, approvalDef] (some ["Transfer"]))
    "DAI" testToAddr [transferDef, approvalDef] (some ["Transfer", "Approval"])

/-- Transfer log emitted at the USDC address of `multiDecoder`. -/
def multiLogAtUSDC : Log :=
  { address := testFromAddr,
    topics := [transferSig, testFromAddr, testToAddr],
    data := [] }

/-- Handler returning a database error, as in the `TestHandle`
handler-error row. -/
def dbErrorHandler : HandlerContext → Option String := fun _ => some "db error"

/-- Registry with the USDC Transfer handler registered. -/
def usdcRegistry : Registry :=
  { handlers := [("USDC:Transfer", dbErrorHandler)] }

/-- Decoded USDC Transfer event as dispatch input. -/
def usdcTransferEvent : DecodedEvent :=
  { contractName := "USDC", eventName := "Transfer",
    eventID := "USDC:Transfer", data := [] }

/-- Handler context carrying the USDC Transfer event. -/
def usdcHandlerContext : HandlerContext :=
  { block := { number := 1000, hash := "0xabc", time := 0, parentHash := "0xdef" },
    log := { address := 0, topics := [], data := [] },
    event := some usdcTransferEvent }

/-- Valid contract entry of the config tests. -/
def usdcContractConfig : ContractConfig :=
  { abi := "abis/erc20.json", address := "0x1234", startBlock := 0,
    events := ["Transfer"] }

/-- Default server ports of the config tests. -/
def testServerConfig : ServerConfig := { graphqlPort := 8080, metricsPort := 9090 }

/-- Default sync settings of the config tests. -/
def testSyncConfig : SyncConfig :=
  { batchSize := 1000, maxRetries := 3, retryDelay := 1000000000 }

/-- Valid configuration of the config tests. -/
def validTestConfig : Config :=
  { name := "test-indexer", network := "linea-mainnet",
    database := "postgres://localhost/test", rpcURL := "",
    contracts := [("usdc", usdcContractConfig)],
    server := testServerConfig, sync := testSyncConfig,
    chainID := 0, pollInterval := 0 }

/-- Configuration with an empty database connection string. -/
def missingDatabaseConfig : Config := { validTestConfig with database := "" }

/-- Configuration naming an unsupported network. -/
def unknownNetworkConfig : Config := { validTestConfig with network := "goerli" }

/-- Configuration produced by a successful load of `validTestConfig`
with both environment overrides set. -/
def loadedTestConfig : Config :=
  { validTestConfig with
    chainID := 59144, pollInterval := 2000000000,
    database := "postgres://env/db",
    rpcURL := "https://custom-rpc.example.com" }

/-- Start state of the sync-cursor scenario: block 100 committed. -/
def syncStateAt100 : SyncState :=
  { lastBlock := 100,
    events := [{ blockNumber := 100, txHash := "0x1", logIndex := 0 }] }

/-- Batch trace where block 101 commits and block 102 rolls back. -/
def traceCommitThenFail : List (Nat × TxResult) :=
  [(101, .committed [{ blockNumber := 101, txHash := "0x2", logIndex := 0 }]),
   (102, .rolledBack "handler USDC:Transfer: db error")]

/-! ## Helper lemmas -/

theorem isPrefixList_append (l t : List Char) : isPrefixList l (l ++ t) = true := by
  induction l with
  | nil => rfl
  | cons c cs ih => simp [isPrefixList, ih]

theorem containsList_of_isPrefixList {n h : List Char}
    (hp : isPrefixList n h = true) : containsList n h = true := by
  cases h with
  | nil => cases n with
    | nil => rfl
    | cons c cs => simp [isPrefixList] at hp
  | cons c cs => simp [containsList, hp]

theorem containsList_append_left (n : List Char) (pre : List Char)
    {h : List Char} (hc : containsList n h = true) :
    containsList n (pre ++ h) = true := by
  induction pre with
  | nil => simpa using hc
  | cons c cs ih => simp [containsList, ih]

theorem containsList_front (n t : List Char) :
    containsList n (n ++ t) = true :=
  containsList_of_isPrefixList (isPrefixList_append n t)

theorem containsList_self (l : List Char) : containsList l l = true := by
  simpa using containsList_front l []

theorem strContains_self (s : String) : strContains s s = true :=
  containsList_self s.toList

theorem mapLookup_mapInsert_self {κ α : Type} [DecidableEq κ]
    (k : κ) (v : α) (m : List (κ × α)) :
    mapLookup k (mapInsert k v m) = some v := by
  induction m with
  | nil => simp [mapInsert, mapLookup]
  | cons p rest ih =>
    obtain ⟨k0, v0⟩ := p
    by_cases h : k0 = k
    · simp [mapInsert, mapLookup, h]
    · simp [mapInsert, mapLookup, h, ih]

theorem contractsError_eq_none_iff (l : List (String × ContractConfig)) :
    contractsError l = none ↔
      ∀ p ∈ l, p.2.address ≠ "" ∧ p.2.abi ≠ "" ∧ p.2.events ≠ [] := by
  induction l with
  | nil => simp [contractsError]
  | cons p rest ih =>
    obtain ⟨n, cc⟩ := p
    simp only [contractsError]
    split_ifs with h1 h2 h3
    · constructor
      · intro h; simp at h
      · intro hall; exact absurd h1 (hall (n, cc) (by simp)).1
    · constructor
      · intro h; simp at h
      · intro hall; exact absurd h2 (hall (n, cc) (by simp)).2.1
    · constructor
      · intro h; simp at h
      · intro hall
        exact absurd (List.isEmpty_iff.mp h3) (hall (n, cc) (by simp)).2.2
    · rw [ih]
      constructor
      · intro hr p hp
        rcases List.mem_cons.mp hp with heq | hmem
        · subst heq
          exact ⟨h1, h2, fun he => h3 (List.isEmpty_iff.mpr he)⟩
        · exact hr p hmem
      · intro hall p hp
        exact hall p (List.mem_cons_of_mem _ hp)

theorem contractsError_some (l : List (String × ContractConfig)) {s : String}
    (h : contractsError l = some s) :
    ∃ p ∈ l,
      s = "contract " ++ p.1 ++ ": address is required" ∨
      s = "contract " ++ p.1 ++ ": abi path is required" ∨
      s = "contract " ++ p.1 ++ ": at least one event must be specified" := by
  induction l with
  | nil => simp [contractsError] at h
  | cons p rest ih =>
    obtain ⟨n, cc⟩ := p
    simp only [contractsError] at h
    split_ifs at h with h1 h2 h3
    · exact ⟨(n, cc), by simp, Or.inl (Option.some.inj h).symm⟩
    · exact ⟨(n, cc), by simp, Or.inr (Or.inl (Option.some.inj h).symm)⟩
    · exact ⟨(n, cc), by simp, Or.inr (Or.inr (Option.some.inj h).symm)⟩
    · obtain ⟨q, hq, hs⟩ := ih h
      exact ⟨q, List.mem_cons_of_mem _ hq, hs⟩

/-! ## Claim theorems -/

/-- C9: the network preset table contains exactly two entries, bit-exact
— linea-mainnet with chain ID 59144, poll interval 2 seconds, default
RPC `https://rpc.linea.build`, L1 chain ID 1; linea-sepolia with chain
ID 59141, poll interval 2 seconds, default RPC
`https://rpc.sepolia.linea.build`, L1 chain ID 11155111 — and
`GetNetworkPreset` reports found exactly for these two names. -/
theorem C9_network_presets :
    getNetworkPreset "linea-mainnet" =
      some { chainID := 59144, pollInterval := 2000000000,
             defaultRPC := "https://rpc.linea.build",
             blockTime := 2000000000, l1ChainID := 1 } ∧
    getNetworkPreset "linea-sepolia" =
      some { chainID := 59141, pollInterval := 2000000000,
             defaultRPC := "https://rpc.sepolia.linea.build",
             blockTime := 2000000000, l1ChainID := 11155111 } ∧
    ∀ s : String, (getNetworkPreset s).isSome = true ↔
      (s = "linea-mainnet" ∨ s = "linea-sepolia") := by
  refine ⟨by decide, by decide, ?_⟩
  intro s
  unfold getNetworkPreset
  split_ifs with h1 h2 <;> simp_all

/-- C10: `BaseEvent.BeforeCreate` always returns a nil error, sets
`Timestamp` to the current time exactly when it was the zero value,
leaves a non-zero `Timestamp` unchanged, and modifies no other field. -/
theorem C10_before_create (now : Nat) (b : BaseEvent) :
    (beforeCreate now b).2 = none ∧
    (beforeCreate now b).1.timestamp =
      (if b.timestamp = 0 then now else b.timestamp) ∧
    (beforeCreate now b).1.id = b.id ∧
    (beforeCreate now b).1.blockNumber = b.blockNumber ∧
    (beforeCreate now b).1.txHash = b.txHash ∧
    (beforeCreate now b).1.txIndex = b.txIndex ∧
    (beforeCreate now b).1.logIndex = b.logIndex ∧
    (beforeCreate now b).1.createdAt = b.createdAt := by
  unfold beforeCreate
  by_cases h : b.timestamp = 0 <;> simp [h]

/-- C4: `isRangeTooLargeError` returns true exactly when the error is
non-nil and its message, lowercased, contains one of the ten listed
tokens; a nil error is never classified as range-too-large. -/
theorem C4_range_too_large_classifier :
    isRangeTooLargeError none = false ∧
    ∀ msg : String,
      isRangeTooLargeError (some msg) = true ↔
        ∃ ind ∈ rangeTooLargeIndicators, strContains (strToLower msg) ind = true := by
  refine ⟨rfl, ?_⟩
  intro msg
  simp [isRangeTooLargeError, List.any_eq_true]

/-- C7 counterexample: with an empty database connection string,
`Validate` returns a longer message than the exact spec string
"database connection string is required". -/
theorem C7_exact_message_counterexample :
    validate missingDatabaseConfig =
      some "database connection string is required (set DATABASE_URL env var or database in config)" ∧
    ("database connection string is required (set DATABASE_URL env var or database in config)" : String) ≠
      "database connection string is required" := by
  constructor
  · rfl
  · decide

/-- C7 (amended): `Validate` returns nil exactly when no validation
condition fires, and every error it returns is one of the exact strings
"name is required", "network is required", "database connection string
is required (set DATABASE_URL env var or database in config)", "at
least one contract must be defined", or a per-contract "contract
<name>: address is required" / "contract <name>: abi path is required"
/ "contract <name>: at least one event must be specified". -/
theorem C7_validate_characterization (c : Config) :
    (validate c = none ↔
      (c.name ≠ "" ∧ c.network ≠ "" ∧ c.database ≠ "" ∧ c.contracts ≠ [] ∧
        ∀ p ∈ c.contracts,
          p.2.address ≠ "" ∧ p.2.abi ≠ "" ∧ p.2.events ≠ [])) ∧
    (∀ s, validate c = some s →
      s = "name is required" ∨
      s = "network is required" ∨
      s = "database connection string is required (set DATABASE_URL env var or database in config)" ∨
      s = "at least one contract must be defined" ∨
      ∃ p ∈ c.contracts,
        s = "contract " ++ p.1 ++ ": address is required" ∨
        s = "contract " ++ p.1 ++ ": abi path is required" ∨
        s = "contract " ++ p.1 ++ ": at least one event must be specified") := by
  unfold validate
  split_ifs with h1 h2 h3 h4
  · exact ⟨by simp [h1], fun s hs => Or.inl (Option.some.inj hs).symm⟩
  · exact ⟨by simp [h2], fun s hs => Or.inr (Or.inl (Option.some.inj hs).symm)⟩
  · exact ⟨by simp [h3], fun s hs => Or.inr (Or.inr (Or.inl (Option.some.inj hs).symm))⟩
  · refine ⟨by simp [List.isEmpty_iff.mp h4], ?_⟩
    exact fun s hs => Or.inr (Or.inr (Or.inr (Or.inl (Option.some.inj hs).symm)))
  · constructor
    · rw [contractsError_eq_none_iff]
      constructor
      · intro hall
        exact ⟨h1, h2, h3, fun he => h4 (List.isEmpty_iff.mpr he), hall⟩
      · intro hall
        exact hall.2.2.2.2
    · intro s hs
      exact Or.inr (Or.inr (Or.inr (Or.inr (contractsError_some _ hs))))

/-- C7 witness: the valid test configuration validates to nil, and the
empty-database configuration produces one of the characterized
messages. -/
theorem C7_validate_characterization_witness :
    validate validTestConfig = none ∧
    (("database connection string is required (set DATABASE_URL env var or database in config)" : String) = "name is required" ∨
      ("database connection string is required (set DATABASE_URL env var or database in config)" : String) = "network is required" ∨
      ("database connection string is required (set DATABASE_URL env var or database in config)" : String) = "database connection string is required (set DATABASE_URL env var or database in config)" ∨
      ("database connection string is required (set DATABASE_URL env var or database in config)" : String) = "at least one contract must be defined" ∨
      ∃ p ∈ missingDatabaseConfig.contracts,
        ("database connection string is required (set DATABASE_URL env var or database in config)" : String) = "contract " ++ p.1 ++ ": address is required" ∨
        ("database connection string is required (set DATABASE_URL env var or database in config)" : String) = "contract " ++ p.1 ++ ": abi path is required" ∨
        ("database connection string is required (set DATABASE_URL env var or database in config)" : String) = "contract " ++ p.1 ++ ": at least one event must be specified") :=
  ⟨(C7_validate_characterization validTestConfig).1.mpr (by decide),
   (C7_validate_characterization missingDatabaseConfig).2 _ rfl⟩

/-- C8: on a successful `Load`, a non-empty `DATABASE_URL` replaces the
configured database string (an empty one leaves it alone), a non-empty
`LINEA_RPC_URL` replaces the RPC URL, and with neither the environment
variable nor `rpc_url` set, the network preset default RPC is used; an
unrecognized network makes `Load` fail with an error containing
"unknown network: <n> (valid: linea-mainnet, linea-sepolia)". -/
theorem C8_load_env_overrides (cfg : Config) (envDB envRPC : String) :
    (∀ c, load cfg envDB envRPC = .ok c →
      (envDB ≠ "" → c.database = envDB) ∧
      (envDB = "" → c.database = cfg.database) ∧
      (envRPC ≠ "" → c.rpcURL = envRPC) ∧
      (envRPC = "" → cfg.rpcURL = "" →
        ∃ p, getNetworkPreset cfg.network = some p ∧ c.rpcURL = p.defaultRPC)) ∧
    (getNetworkPreset cfg.network = none →
      ∃ e, load cfg envDB envRPC = .error e ∧
        strContains e
          ("unknown network: " ++ cfg.network ++ " (valid: linea-mainnet, linea-sepolia)") = true) := by
  constructor
  · intro c hc
    cases hp : getNetworkPreset cfg.network with
    | none => simp [load, hp] at hc
    | some p =>
      simp only [load, hp] at hc
      split at hc
      · exact absurd hc (by simp)
      · replace hc := Except.ok.inj hc
        subst hc
        refine ⟨?_, ?_, ?_, ?_⟩
        · intro hdb
          by_cases hr : envRPC ≠ "" <;> simp [hr, hdb]
        · intro hdb
          by_cases hr : envRPC ≠ "" <;> simp [hr, hdb] <;>
            by_cases hru : cfg.rpcURL = "" <;> simp [hru]
        · intro hr
          simp [hr]
        · intro hr hru
          refine ⟨p, rfl, ?_⟩
          by_cases hdb : envDB = "" <;> simp [hr, hru, hdb]
  · intro hp
    refine ⟨_, by simp [load, hp], strContains_self _⟩

/-- C8 witness: loading the valid test configuration with both
environment variables set yields the overridden database and RPC URL,
and loading the unknown-network configuration fails with the expected
message. -/
theorem C8_load_env_overrides_witness :
    loadedTestConfig.database = "postgres://env/db" ∧
    loadedTestConfig.rpcURL = "https://custom-rpc.example.com" ∧
    ∃ e, load unknownNetworkConfig "" "" = .error e ∧
      strContains e
        ("unknown network: " ++ unknownNetworkConfig.network ++ " (valid: linea-mainnet, linea-sepolia)") = true :=
  ⟨((C8_load_env_overrides validTestConfig "postgres://env/db"
        "https://custom-rpc.example.com").1 loadedTestConfig (by rfl)).1 (by decide),
   ((C8_load_env_overrides validTestConfig "postgres://env/db"
        "https://custom-rpc.example.com").1 loadedTestConfig (by rfl)).2.2.1 (by decide),
   (C8_load_env_overrides unknownNetworkConfig "" "").2 (by decide)⟩

theorem strContains_append_mid (p m s : String) :
    strContains (p ++ m ++ s) m = true := by
  unfold strContains
  have h : (p ++ m ++ s).toList = p.toList ++ (m.toList ++ s.toList) := by
    simp [String.toList, String.data_append]
  rw [h]
  exact containsList_append_left _ _ (containsList_front _ _)

theorem strContains_append_last (p s : String) :
    strContains (p ++ s) s = true := by
  unfold strContains
  have h : (p ++ s).toList = p.toList ++ s.toList := by
    simp [String.toList, String.data_append]
  rw [h]
  exact containsList_append_left _ _ (containsList_self _)

/-- C5: `Registry.Handle` fails with an error containing "event is nil"
when the context carries no event, silently succeeds when no handler is
registered for the eventID, and on a handler error returns an error that
wraps the handler message and contains the eventID. -/
theorem C5_registry_handle (r : Registry) (ctx : HandlerContext) :
    (ctx.event = none →
      ∃ e, handle r ctx = some e ∧ strContains e "event is nil" = true) ∧
    (∀ ev, ctx.event = some ev → mapLookup ev.eventID r.handlers = none →
      handle r ctx = none) ∧
    (∀ ev f e, ctx.event = some ev → mapLookup ev.eventID r.handlers = some f →
      f ctx = some e →
      ∃ w, handle r ctx = some w ∧ strContains w ev.eventID = true ∧
        strContains w e = true) := by
  refine ⟨?_, ?_, ?_⟩
  · intro h
    refine ⟨"handler: event is nil", by simp [handle, h], by decide⟩
  · intro ev hev hlk
    simp [handle, hev, hlk]
  · intro ev f e hev hf he
    refine ⟨"handler " ++ ev.eventID ++ ": " ++ e, by simp [handle, hev, hf, he], ?_, ?_⟩
    · have hassoc : "handler " ++ ev.eventID ++ ": " ++ e =
          "handler " ++ ev.eventID ++ (": " ++ e) := by
        rw [String.append_assoc]
      rw [hassoc]
      exact strContains_append_mid "handler " ev.eventID (": " ++ e)
    · exact strContains_append_last ("handler " ++ ev.eventID ++ ": ") e

/-- C5 witness: dispatching the USDC Transfer event to a handler that
fails with "db error" yields a wrapped error containing both the
eventID and the handler message. -/
theorem C5_registry_handle_witness :
    ∃ w, handle usdcRegistry usdcHandlerContext = some w ∧
      strContains w usdcTransferEvent.eventID = true ∧
      strContains w "db error" = true :=
  (C5_registry_handle usdcRegistry usdcHandlerContext).2.2 usdcTransferEvent
    dbErrorHandler "db error" rfl rfl rfl

/-- C6 counterexample: the tick arithmetic is Go uint64 arithmetic, so
with `lastBlock = 1000`, `head = 3000` and the admissible batch size
`2 ^ 64 - 1`, the computed upper bound wraps to 999 instead of the
claimed `min (from + batch - 1) head = 3000`. -/
theorem C6_tick_range_counterexample :
    tickRange 1000 3000 (2 ^ 64 - 1) = some (1001, 999) ∧
    (999 : Nat) ≠ min (1001 + (2 ^ 64 - 1) - 1) 3000 := by
  constructor
  · rfl
  · decide

/-- C6 (amended): provided `lastBlock` and the head are below `2 ^ 63`
and `lastBlock + batchSize` does not overflow uint64, a tick with
`lastBlock ≥ head` fetches nothing and reports sync lag 0, and
otherwise requests exactly `from = lastBlock + 1`,
`to = min (from + batchSize - 1) head`. -/
theorem C6_tick_range (l h b : Nat) (hb : 1 ≤ b)
    (hl : l < 2 ^ 63) (hh : h < 2 ^ 63) (hnov : l + b < 2 ^ 64) :
    (l ≥ h → tickRange l h b = none ∧ tickLag l h = 0) ∧
    (l < h → tickRange l h b = some (l + 1, min (l + 1 + b - 1) h)) := by
  constructor
  · intro hge
    refine ⟨by simp [tickRange, hge], ?_⟩
    have h1 : toInt64 h = (h : Int) := by unfold toInt64; rw [if_pos hh]
    have h2 : toInt64 l = (l : Int) := by unfold toInt64; rw [if_pos hl]
    simp only [tickLag, int64Wrap, h1, h2]
    split_ifs <;> omega
  · intro hlt
    have hfrom : (l + 1) % 2 ^ 64 = l + 1 := by omega
    have hto : (l + 1 + b + (2 ^ 64 - 1)) % 2 ^ 64 = l + b := by omega
    have hnge : ¬ l ≥ h := by omega
    simp only [tickRange, hfrom, hto, hnge, if_false, ite_false]
    simp only [Option.some.injEq, Prod.mk.injEq]
    exact ⟨by trivial, by split_ifs <;> omega⟩

/-- C2 counterexample: with USDC registered at one address and DAI at
another, both carrying the shared ERC20 Transfer signature (DAI last),
a log emitted at the USDC address decodes to the DAI identity — the
address does not participate in routing, so the claimed
`(address, topic0)` resolution does not hold. -/
theorem C2_address_routing_counterexample :
    multiLogAtUSDC.address = testFromAddr ∧
    mapLookup testFromAddr multiDecoder.abis = some [transferDef, approvalDef] ∧
    decodeIdentity multiDecoder multiLogAtUSDC = .ok ("DAI", "Transfer") ∧
    ("DAI" : String) ≠ "USDC" := by
  refine ⟨rfl, rfl, rfl, by decide⟩

/-- C2 (amended): the decoder routes on `topic0` alone — the decode
identity is invariant under changing the log address — and when two
contracts register the same signature, the signature-keyed event map
holds the last registration. -/
theorem C2_signature_routing :
    (∀ (d : Decoder) (l : Log) (a : Nat),
      decodeIdentity d { l with address := a } = decodeIdentity d l) ∧
    (∀ (d : Decoder) (c1 c2 : String) (a1 a2 : Nat) (e : AbiEventDef),
      mapLookup e.sig
        (registerContract (registerContract d c1 a1 [e] none) c2 a2 [e] none).events =
        some { contractName := c2, eventDef := e }) := by
  constructor
  · intro d l a
    obtain ⟨addr, topics, data⟩ := l
    rfl
  · intro d c1 c2 a1 a2 e
    simp only [registerContract, selectedEvents, List.foldl_cons, List.foldl_nil]
    exact mapLookup_mapInsert_self _ _ _

theorem hexDigitChar_isLower {n : Nat} (h : n < 16) :
    isLowerHexChar (hexDigitChar n) = true := by
  interval_cases n <;> decide

theorem bytesToHexChars_length (bs : List Nat) :
    (bytesToHexChars bs).length = 2 * bs.length := by
  induction bs with
  | nil => rfl
  | cons b rest ih => simp [bytesToHexChars] at ih ⊢; omega

theorem bytesToHexChars_lower (bs : List Nat) (h : ∀ b ∈ bs, b < 256) :
    ∀ c ∈ bytesToHexChars bs, isLowerHexChar c = true := by
  induction bs with
  | nil => simp [bytesToHexChars]
  | cons b rest ih =>
    intro c hc
    have hb : b < 256 := h b (by simp)
    simp only [bytesToHexChars, List.foldr_cons, List.mem_cons] at hc
    rcases hc with hc | hc | hc
    · exact hc ▸ hexDigitChar_isLower (by omega)
    · exact hc ▸ hexDigitChar_isLower (by omega)
    · exact ih (fun x hx => h x (List.mem_cons_of_mem _ hx)) c hc

/-- C3 counterexample: on the concrete Transfer log of the decoder
tests, `Decode` itself succeeds but maps "from" to the raw address
value, not to any string — the normalization the claim attributes to
`Decode` happens later, in the engine. -/
theorem C3_decode_raw_value_counterexample :
    ((decode usdcDecoder transferLog).toOption.bind
        (fun ev => mapLookup "from" ev.data)) =
      some (GoValue.addr 0x1111111111111111111111111111111111111111) ∧
    isStringValue (GoValue.addr 0x1111111111111111111111111111111111111111) = false := by
  exact ⟨rfl, rfl⟩

/-- C3 (amended): the engine normalization `convertEventData`, applied
to a decoded data mapping, is what produces the persisted typed values:
every entry is normalized in place; an address value becomes its EIP-55
checksummed hex string (0x-prefixed, 42 characters); a 256-bit integer
value becomes its decimal string (a nil pointer becomes "0"); a bytes
value becomes unprefixed lowercase hex of twice its byte length; a
boolean passes through unchanged. -/
theorem C3_convert_event_data (m : List (String × GoValue)) :
    (∀ k v, (k, v) ∈ m → (k, normalizeGoValue v) ∈ convertEventData m) ∧
    (∀ a : Nat, normalizeGoValue (.addr a) = .str (checksumAddressHex a) ∧
      (checksumAddressHex a).data.take 2 = ['0', 'x'] ∧
      (checksumAddressHex a).data.length = 42) ∧
    (∀ n : Int, normalizeGoValue (.big (some n)) = .str (toString n)) ∧
    (normalizeGoValue (.big none) = .str "0") ∧
    (∀ bs : List Nat, (∀ b ∈ bs, b < 256) →
      ∃ s, normalizeGoValue (.bytes bs) = .str s ∧
        s.data.length = 2 * bs.length ∧
        ∀ c ∈ s.data, isLowerHexChar c = true) ∧
    (∀ b : Bool, normalizeGoValue (.boolean b) = .boolean b) := by
  refine ⟨?_, ?_, fun n => rfl, rfl, ?_, fun b => rfl⟩
  · intro k v hkv
    exact List.mem_map.mpr ⟨(k, v), hkv, rfl⟩
  · intro a
    refine ⟨rfl, ?_, ?_⟩
    · show ("0x" ++ String.mk _).data.take 2 = _
      rw [String.data_append]
      rfl
    · show ("0x" ++ String.mk _).data.length = 42
      rw [String.data_append]
      simp [bytesToHexChars_length, natToBytesBE]
  · intro bs hbs
    refine ⟨String.mk (bytesToHexChars bs), rfl, ?_, ?_⟩
    · simpa using bytesToHexChars_length bs
    · simpa using bytesToHexChars_lower bs hbs

/-- C3 witness: a concrete address entry is normalized in place by
`convertEventData`, and a concrete byte string renders as lowercase
hex. -/
theorem C3_convert_event_data_witness :
    ("from", normalizeGoValue (GoValue.addr 0xdac17f958d2ee523a2206206994597c13d831ec7)) ∈
      convertEventData
        [("from", GoValue.addr 0xdac17f958d2ee523a2206206994597c13d831ec7)] ∧
    ∃ s, normalizeGoValue (GoValue.bytes [0xde, 0xad, 0xbe, 0xef]) = .str s ∧
      s.data.length = 2 * ([0xde, 0xad, 0xbe, 0xef] : List Nat).length ∧
      ∀ c ∈ s.data, isLowerHexChar c = true :=
  ⟨(C3_convert_event_data
      [("from", GoValue.addr 0xdac17f958d2ee523a2206206994597c13d831ec7)]).1
      "from" _ (by simp),
   (C3_convert_event_data []).2.2.2.2.1 [0xde, 0xad, 0xbe, 0xef] (by decide)⟩

theorem processBlocks_lastBlock_mono :
    ∀ (blocks : List (Nat × TxResult)) (s : SyncState), Admissible s blocks →
      s.lastBlock ≤ (processBlocks s blocks).lastBlock := by
  intro blocks
  induction blocks with
  | nil => intro s _; exact Nat.le_refl _
  | cons p rest ih =>
    intro s hadm
    obtain ⟨bn, r⟩ := p
    cases r with
    | rolledBack e => exact Nat.le_refl _
    | committed rows =>
      obtain ⟨hlt, -, hrest⟩ := hadm
      have hnext := ih _ hrest
      simp only [processBlocks]
      simp only [applyBlock] at hnext
      omega

theorem processBlocks_change_has_commit :
    ∀ (blocks : List (Nat × TxResult)) (s : SyncState),
      (processBlocks s blocks).lastBlock ≠ s.lastBlock →
      ∃ bn rows, (bn, TxResult.committed rows) ∈ blocks := by
  intro blocks
  induction blocks with
  | nil => intro s h; exact absurd rfl h
  | cons p rest ih =>
    intro s h
    obtain ⟨bn, r⟩ := p
    cases r with
    | rolledBack e => exact absurd rfl h
    | committed rows => exact ⟨bn, rows, by simp⟩

theorem processBlocks_rows_le :
    ∀ (blocks : List (Nat × TxResult)) (s : SyncState), Admissible s blocks →
      (∀ row ∈ s.events, row.blockNumber ≤ s.lastBlock) →
      ∀ row ∈ (processBlocks s blocks).events,
        row.blockNumber ≤ (processBlocks s blocks).lastBlock := by
  intro blocks
  induction blocks with
  | nil => intro s _ hinv; exact hinv
  | cons p rest ih =>
    intro s hadm hinv
    obtain ⟨bn, r⟩ := p
    cases r with
    | rolledBack e => exact hinv
    | committed rows =>
      obtain ⟨hlt, hrows, hrest⟩ := hadm
      have hrows := (hrows rows rfl).2
      refine ih { lastBlock := bn, events := s.events ++ rows } hrest ?_
      intro row hrow
      rcases List.mem_append.mp hrow with hmem | hmem
      · exact Nat.le_trans (hinv row hmem) (Nat.le_of_lt hlt)
      · exact Nat.le_of_eq (hrows row hmem)

/-- C1: over any admissible batch of per-block transactions, the cursor
`lastBlock` is non-decreasing, it changes only when some block
transaction committed, a batch beginning with a rolled-back transaction
leaves the whole engine state (cursor and persisted rows) unchanged,
and the invariant that every persisted row sits at or below the cursor
is preserved — so the cursor never runs ahead of the persisted event
rows, whatever the failure mode folded into the rollback. -/
theorem C1_sync_cursor (s : SyncState) (blocks : List (Nat × TxResult))
    (hadm : Admissible s blocks) :
    s.lastBlock ≤ (processBlocks s blocks).lastBlock ∧
    ((processBlocks s blocks).lastBlock ≠ s.lastBlock →
      ∃ bn rows, (bn, TxResult.committed rows) ∈ blocks) ∧
    (∀ bn e rest, blocks = (bn, TxResult.rolledBack e) :: rest →
      processBlocks s blocks = s) ∧
    ((∀ row ∈ s.events, row.blockNumber ≤ s.lastBlock) →
      ∀ row ∈ (processBlocks s blocks).events,
        row.blockNumber ≤ (processBlocks s blocks).lastBlock) := by
  refine ⟨processBlocks_lastBlock_mono blocks s hadm,
          processBlocks_change_has_commit blocks s, ?_,
          processBlocks_rows_le blocks s hadm⟩
  intro bn e rest hblocks
  subst hblocks
  rfl

/-- C1 witness: from the committed state at block 100, a batch where
block 101 commits and block 102 rolls back exercises every conjunct of
the cursor theorem. -/
theorem C1_sync_cursor_witness :
    syncStateAt100.lastBlock ≤
      (processBlocks syncStateAt100 traceCommitThenFail).lastBlock ∧
    ((processBlocks syncStateAt100 traceCommitThenFail).lastBlock ≠
        syncStateAt100.lastBlock →
      ∃ bn rows, (bn, TxResult.committed rows) ∈ traceCommitThenFail) ∧
    (∀ bn e rest,
      traceCommitThenFail = (bn, TxResult.rolledBack e) :: rest →
      processBlocks syncStateAt100 traceCommitThenFail = syncStateAt100) ∧
    ((∀ row ∈ syncStateAt100.events,
        row.blockNumber ≤ syncStateAt100.lastBlock) →
      ∀ row ∈ (processBlocks syncStateAt100 traceCommitThenFail).events,
        row.blockNumber ≤
          (processBlocks syncStateAt100 traceCommitThenFail).lastBlock) :=
  C1_sync_cursor syncStateAt100 traceCommitThenFail (by
    simp only [traceCommitThenFail, Admissible, applyBlock]
    refine ⟨by decide, ?_, by decide, ?_, trivial⟩
    · intro rows h
      cases h
      exact ⟨by decide, by decide⟩
    · intro rows h
      exact nomatch h)

/-- C6 witness: the amended tick arithmetic at the concrete rows of
`TestBatchRangeCalculation` — a partial batch at the end of the chain,
and an already-synced tick. -/
theorem C6_tick_range_witness :
    ((2500 ≥ 3000 → tickRange 2500 3000 1000 = none ∧ tickLag 2500 3000 = 0) ∧
      (2500 < 3000 →
        tickRange 2500 3000 1000 = some (2500 + 1, min (2500 + 1 + 1000 - 1) 3000))) ∧
    ((3000 ≥ 3000 → tickRange 3000 3000 1000 = none ∧ tickLag 3000 3000 = 0) ∧
      (3000 < 3000 →
        tickRange 3000 3000 1000 = some (3000 + 1, min (3000 + 1 + 1000 - 1) 3000))) :=
  ⟨C6_tick_range 2500 3000 1000 (by decide) (by decide) (by decide) (by decide),
   C6_tick_range 3000 3000 1000 (by decide) (by decide) (by decide) (by decide)⟩

/-! ## Validation against recorded test vectors

The rows below replay expectations recorded in the test files against
the embedded definitions. -/

example : isRangeTooLargeError (some "query returned more than 10000 results") = true := by decide

example : isRangeTooLargeError (some "BLOCK RANGE TOO LARGE") = true := by decide

example : isRangeTooLargeError (some "Error: Query Returned More Than 5000 results") = true := by decide

example : isRangeTooLargeError (some "connection refused") = false := by decide

example : isRangeTooLargeError (some "block not found") = false := by decide

example : isRangeTooLargeError (some "context canceled") = false := by decide

example : isRangeTooLargeError (some "") = false := by decide

example : isRangeTooLargeError (some "range error") = false := by decide

example : isRangeTooLargeError
    (some "Log response size exceeded. You can make eth_getLogs requests with up to a 2K block range") = false := by
  decide

example : isRangeTooLargeError (some "eth_getLogs failed: block range too large") = true := by decide

example : validate validTestConfig = none := by decide

example : validate { validTestConfig with name := "" } = some "name is required" := by decide

example :
    validate { validTestConfig with
      contracts := [("usdc", { usdcContractConfig with address := "" })] } =
      some "contract usdc: address is required" := by decide

example : getNetworkPreset "goerli" = none := by decide

set_option maxRecDepth 10000 in
example : checksumAddressHex 0xdac17f958d2ee523a2206206994597c13d831ec7 =
    "0xdAC17F958D2ee523a2206206994597C13D831ec7" := by decide

set_option maxRecDepth 10000 in
example : checksumAddressHex 0xaaaaaaaaaaaaaaaaaaaaaaaaaaaaaaaaaaaaaaaa =
    "0xaAaAaAaaAaAaAaaAaAAAAAAAAaaaAaAaAaaAaaAa" := by decide

set_option maxRecDepth 10000 in
example :
    bytesToNat (keccak256 ("Transfer(address,address,uint256)".toList.map Char.toNat)) =
      transferSig := by decide

example :
    decode usdcDecoder transferLog =
      .ok { contractName := "USDC", eventName := "Transfer",
            eventID := "USDC:Transfer",
            data := [("from", .addr testFromAddr), ("to", .addr testToAddr),
                     ("value", .big (some 1000000))] } := by rfl

example : decode usdcDecoder { transferLog with topics := [] } = .error "log has no topics" := by rfl

example :
    decode usdcDecoder { transferLog with topics := [0x1234] } =
      .error "unknown event signature" := by rfl

example :
    decode usdcDecoder { transferLog with data := [] } =
      .ok { contractName := "USDC", eventName := "Transfer",
            eventID := "USDC:Transfer",
            data := [("from", .addr testFromAddr), ("to", .addr testToAddr)] } := by rfl

example : handle usdcRegistry { usdcHandlerContext with event := none } =
    some "handler: event is nil" := by rfl

example :
    handle { handlers := [] } usdcHandlerContext = none := by rfl

example : handle usdcRegistry usdcHandlerContext =
    some "handler USDC:Transfer: db error" := by rfl

example : tickRange 1000 3000 1000 = some (1001, 2000) := by decide

example : tickRange 2999 3000 1000 = some (3000, 3000) := by decide

example : tickRange 3500 3000 1000 = none := by decide

example : tickLag 900 1000 = 100 := by decide

example : tickLag 1100 1000 = 0 := by decide

example :
    beforeCreate 1700000000
      { id := 1, blockNumber := 12345, txHash := "0xabc123", txIndex := 5,
        logIndex := 2, timestamp := 0, createdAt := 0 } =
      ({ id := 1, blockNumber := 12345, txHash := "0xabc123", txIndex := 5,
         logIndex := 2, timestamp := 1700000000, createdAt := 0 }, none) := by decide

example :
    beforeCreate 1700000000
      { id := 1, blockNumber := 12345, txHash := "0xabc123", txIndex := 5,
        logIndex := 2, timestamp := 42, createdAt := 0 } =
      ({ id := 1, blockNumber := 12345, txHash := "0xabc123", txIndex := 5,
         logIndex := 2, timestamp := 42, createdAt := 0 }, none) := by decide

end Rafale
